import Mathlib

/-!
Verification of the hadron deployment SDK (Go) against its specification.

The Go sources are shallowly embedded: pure functions (`Container.ConfigHash`,
`PullImage`'s stdout parsing, `FirewallBuilder.Done`, content-addressed upload
paths) become Lean functions over `Nat`-byte lists and `String`s; the
reconciler (`executor.execute` and the `deploy*` family in the sdk package) is
embedded as a pure function from a `Plan` and a `World` (the oracle of remote
responses, one field per remote query the executor can make) to a result plus
the list of remote commands issued, in order.  Go maps are represented as
association lists carrying their iteration order, since Go map iteration order
is unspecified and `ConfigHash` iterates maps directly.  SHA-256 is implemented
in full (FIPS 180-4) over byte lists with `Nat` arithmetic mod 2^32, so
concrete digests are computable inside proofs.
-/

namespace Hadron

set_option maxRecDepth 4000000

/-! ### SHA-256 (FIPS 180-4), executable over `List Nat` bytes -/

def w32 (n : Nat) : Nat := n % 4294967296

def rotr (x n : Nat) : Nat := w32 ((x >>> n) ||| (x <<< (32 - n)))

def shaCh (x y z : Nat) : Nat := (x &&& y) ^^^ ((x ^^^ 4294967295) &&& z)

def shaMaj (x y z : Nat) : Nat := (x &&& y) ^^^ (x &&& z) ^^^ (y &&& z)

def bsig0 (x : Nat) : Nat := rotr x 2 ^^^ rotr x 13 ^^^ rotr x 22

def bsig1 (x : Nat) : Nat := rotr x 6 ^^^ rotr x 11 ^^^ rotr x 25

def ssig0 (x : Nat) : Nat := rotr x 7 ^^^ rotr x 18 ^^^ (x >>> 3)

def ssig1 (x : Nat) : Nat := rotr x 17 ^^^ rotr x 19 ^^^ (x >>> 10)

def kConsts : List Nat :=
  [1116352408, 1899447441, 3049323471, 3921009573, 961987163, 1508970993,
   2453635748, 2870763221, 3624381080, 310598401, 607225278, 1426881987,
   1925078388, 2162078206, 2614888103, 3248222580, 3835390401, 4022224774,
   264347078, 604807628, 770255983, 1249150122, 1555081692, 1996064986,
   2554220882, 2821834349, 2952996808, 3210313671, 3336571891, 3584528711,
   113926993, 338241895, 666307205, 773529912, 1294757372, 1396182291,
   1695183700, 1986661051, 2177026350, 2456956037, 2730485921, 2820302411,
   3259730800, 3345764771, 3516065817, 3600352804, 4094571909, 275423344,
   430227734, 506948616, 659060556, 883997877, 958139571, 1322822218,
   1537002063, 1747873779, 1955562222, 2024104815, 2227730452, 2361852424,
   2428436474, 2756734187, 3204031479, 3329325298]

structure H8 where
  a : Nat
  b : Nat
  c : Nat
  d : Nat
  e : Nat
  f : Nat
  g : Nat
  h : Nat
deriving Repr, DecidableEq

def initH : H8 :=
  ⟨1779033703, 3144134277, 1013904242, 2773480762, 1359893119, 2600822924, 528734635,
    1541459225⟩

def be8 (n : Nat) : List Nat :=
  [(n >>> 56) &&& 255, (n >>> 48) &&& 255, (n >>> 40) &&& 255, (n >>> 32) &&& 255,
   (n >>> 24) &&& 255, (n >>> 16) &&& 255, (n >>> 8) &&& 255, n &&& 255]

def be4 (n : Nat) : List Nat :=
  [(n >>> 24) &&& 255, (n >>> 16) &&& 255, (n >>> 8) &&& 255, n &&& 255]

def padBytes (msg : List Nat) : List Nat :=
  let len := msg.length
  let zeros := (64 + 55 - (len % 64)) % 64
  msg ++ 0x80 :: List.replicate zeros 0 ++ be8 (8 * len)

def bytesToWords : List Nat → List Nat
  | a :: b :: c :: d :: rest => ((a <<< 24) ||| (b <<< 16) ||| (c <<< 8) ||| d) :: bytesToWords rest
  | _ => []

def extendW (w : List Nat) : Nat → List Nat
  | 0 => w
  | k + 1 =>
    let n := w.length
    let v := w32 (ssig1 (w.getD (n - 2) 0) + w.getD (n - 7) 0 + ssig0 (w.getD (n - 15) 0) +
      w.getD (n - 16) 0)
    extendW (w ++ [v]) k

def roundStep (st : H8) (kw : Nat × Nat) : H8 :=
  let t1 := w32 (st.h + bsig1 st.e + shaCh st.e st.f st.g + kw.1 + kw.2)
  let t2 := w32 (bsig0 st.a + shaMaj st.a st.b st.c)
  ⟨w32 (t1 + t2), st.a, st.b, st.c, w32 (st.d + t1), st.e, st.f, st.g⟩

def compress (st : H8) (block : List Nat) : H8 :=
  let w := extendW block 48
  let fin := (kConsts.zip w).foldl roundStep st
  ⟨w32 (st.a + fin.a), w32 (st.b + fin.b), w32 (st.c + fin.c), w32 (st.d + fin.d),
   w32 (st.e + fin.e), w32 (st.f + fin.f), w32 (st.g + fin.g), w32 (st.h + fin.h)⟩

def sha256Iter : Nat → H8 → List Nat → H8
  | 0, st, _ => st
  | k + 1, st, ws => sha256Iter k (compress st (ws.take 16)) (ws.drop 16)

def sha256Bytes (msg : List Nat) : List Nat :=
  let ws := bytesToWords (padBytes msg)
  let st := sha256Iter (ws.length / 16) initH ws
  be4 st.a ++ be4 st.b ++ be4 st.c ++ be4 st.d ++ be4 st.e ++ be4 st.f ++ be4 st.g ++ be4 st.h

def hexDigit (n : Nat) : Char := if n < 10 then Char.ofNat (48 + n) else Char.ofNat (87 + n)

/-- Lowercase hex of a byte list, as Go's `hex.EncodeToString` / `%x` produce. -/
def hexOfBytes (bs : List Nat) : String :=
  String.mk (bs.foldr (fun b acc => hexDigit (b / 16) :: hexDigit (b % 16) :: acc) [])

def sha256Hex (msg : List Nat) : String := hexOfBytes (sha256Bytes msg)

/-! ### Go string primitives used by the sources -/

/-- UTF-8 encoding of one character, as Go's `[]byte(s)` produces. -/
def utf8Char (c : Char) : List Nat :=
  let n := c.toNat
  if n < 128 then [n]
  else if n < 2048 then [192 ||| (n >>> 6), 128 ||| (n &&& 63)]
  else if n < 65536 then [224 ||| (n >>> 12), 128 ||| ((n >>> 6) &&& 63), 128 ||| (n &&& 63)]
  else [240 ||| (n >>> 18), 128 ||| ((n >>> 12) &&& 63), 128 ||| ((n >>> 6) &&& 63),
    128 ||| (n &&& 63)]

def utf8Bytes (s : String) : List Nat :=
  s.data.foldr (fun c acc => utf8Char c ++ acc) []

def containsAux (sub : List Char) : List Char → Bool
  | [] => sub.isEmpty
  | c :: t => sub.isPrefixOf (c :: t) || containsAux sub t

/-- Go `strings.Contains`: substring containment. -/
def goContains (s sub : String) : Bool := containsAux sub.data s.data

def isSpaceChar (c : Char) : Bool :=
  c == ' ' || c == '\t' || c == '\n' || c == '\r' || c.toNat == 11 || c.toNat == 12

/-- Go `strings.TrimSpace` (restricted to ASCII whitespace). -/
def goTrimSpace (s : String) : String :=
  String.mk (((s.data.dropWhile isSpaceChar).reverse.dropWhile isSpaceChar).reverse)

/-! ### Sorting, as Go's `sort.Strings` over map keys

Go code extracts a map's keys, sorts them, and indexes the map at each key,
which — a map having pairwise-distinct keys — produces exactly the
association list sorted by key.  The map is embedded as an association list
(carrying Go's unspecified iteration order); the sorted-key pass is
`insertionSort` on the key order. -/

def keyLe (a b : String × String) : Prop := a.1 ≤ b.1

def keyLt (a b : String × String) : Prop := a.1 < b.1

instance : DecidableRel keyLe := fun a b => inferInstanceAs (Decidable (a.1 ≤ b.1))

instance : IsTotal (String × String) keyLe := ⟨fun a b => le_total a.1 b.1⟩

instance : IsTrans (String × String) keyLe := ⟨fun _ _ _ h1 h2 => le_trans h1 h2⟩

instance : IsAntisymm (String × String) keyLt :=
  ⟨fun _ _ h1 h2 => absurd (lt_trans h1 h2) (lt_irrefl _)⟩

def sortByKey (l : List (String × String)) : List (String × String) := l.insertionSort keyLe

def sortStrings (l : List String) : List String := l.insertionSort (· ≤ ·)

/-! ### Data model (sdk package): Network, Volume, HealthCheck, Container -/

/-- sdk `Network` (network.go); `host` is the endpoint string
(`Host.String()` returns the endpoint). -/
structure NetworkS where
  name : String
  host : String
  driver : String
deriving Repr, DecidableEq

/-- `Network.ConfigHash`: SHA-256 of `name|driver|host`. -/
def NetworkS.configHash (n : NetworkS) : String :=
  sha256Hex (utf8Bytes (n.name ++ "|" ++ n.driver ++ "|" ++ n.host))

/-- sdk `Volume` (volume.go). -/
structure VolumeS where
  name : String
  host : String
  driver : String
deriving Repr, DecidableEq

/-- `Volume.ConfigHash`: SHA-256 of `name|driver|host`. -/
def VolumeS.configHash (v : VolumeS) : String :=
  sha256Hex (utf8Bytes (v.name ++ "|" ++ v.driver ++ "|" ++ v.host))

inductive HealthCheckType where
  | http
  | tcp
  | command
deriving Repr, DecidableEq

/-- sdk `HealthCheck` (health.go); durations are nanoseconds as Go
`time.Duration`. -/
structure HealthCheck where
  checkType : HealthCheckType
  path : String
  port : Int
  command : List String
  timeout : Int
  interval : Int
  retries : Int
deriving Repr, DecidableEq

def defaultHealthCheckTimeout : Int := 30000000000

def defaultHealthCheckInterval : Int := 5000000000

/-- sdk `HTTPCheck`. -/
def httpCheck (path : String) (port : Int) : HealthCheck :=
  ⟨.http, path, port, [], defaultHealthCheckTimeout, defaultHealthCheckInterval, 5⟩

/-- sdk `VolumeMount`. -/
structure VolumeMount where
  source : String
  target : String
  mode : String
deriving Repr, DecidableEq

/-- sdk `FileMount`; `pathHash` is the result of `hash.Path(localPath)`
(`some` digest, or `none` when hashing the local file failed, the fallback
branch in `ConfigHash`). -/
structure FileMount where
  localPath : String
  pathHash : Option String
  containerPath : String
  mode : String
deriving Repr, DecidableEq

/-- sdk `DataMount`: raw bytes mounted as a file. -/
structure DataMount where
  data : List Nat
  containerPath : String
  mode : String
deriving Repr, DecidableEq

/-- sdk `Container` (container.go, current version with cpus/pids-limit/
hostname/networks/extraHosts/labels/groupAdd).  `host` is the endpoint of the
Host the container is assigned to; `networks` holds the network names
(`Network.Name()`), in the order `Network()` was called; `tmpfs`, `envVars`
and `labels` are Go maps, embedded as association lists in iteration order;
`envFileHash` is the result of `hash.File(envFile)` (`none` = error,
fallback to the path). -/
structure Container where
  name : String
  host : String
  image : String
  command : List String
  user : String
  memory : String
  memoryReservation : String
  cpuShares : Int
  cpus : String
  pidsLimit : Int
  hostname : String
  networks : List String
  networkAlias : String
  ports : List String
  extraHosts : List String
  volumes : List VolumeMount
  mounts : List FileMount
  dataMounts : List DataMount
  tmpfs : List (String × String)
  envFile : String
  envFileHash : Option String
  envVars : List (String × String)
  labels : List (String × String)
  healthCheck : Option HealthCheck
  dependsOn : List String
  readOnly : Bool
  securityOpts : List String
  capDrop : List String
  capAdd : List String
  groupAdd : List String
  restart : String
deriving Repr, DecidableEq

/-- The `configParts` list built by `Container.ConfigHash`, in source order.
The env-var and label maps have their keys sorted (`sort.Strings`) before
emission; the network names are sorted; the `tmpfs` map is iterated directly
(`for mountPoint, options := range c.tmpfs`), so its parts appear in map
iteration order, embedded here as the list order of the `tmpfs` field. -/
def Container.configParts (c : Container) : List String :=
  let p := [c.name, c.image]
  let p := if c.command.length > 0 then p ++ [String.intercalate " " c.command] else p
  let p := if c.user = "" then p else p ++ [c.user]
  let p := if c.memory = "" then p else p ++ [c.memory]
  let p := if c.memoryReservation = "" then p else p ++ [c.memoryReservation]
  let p := if c.cpuShares > 0 then p ++ ["cpu-shares:" ++ toString c.cpuShares] else p
  let p := if c.cpus = "" then p else p ++ ["cpus:" ++ c.cpus]
  let p := if c.pidsLimit > 0 then p ++ ["pids-limit:" ++ toString c.pidsLimit] else p
  let p := if c.hostname = "" then p else p ++ [c.hostname]
  let p := if c.networks.length > 0 then
      p ++ [String.intercalate "," (sortStrings c.networks)] else p
  let p := if c.networkAlias = "" then p else p ++ [c.networkAlias]
  let p := p ++ [String.intercalate "," c.ports]
  let p := p ++ [String.intercalate "," c.extraHosts]
  let p := p ++ c.volumes.map (fun v => v.source ++ ":" ++ v.target ++ ":" ++ v.mode)
  let p := p ++ c.mounts.map (fun m =>
    match m.pathHash with
    | some h => "mount:" ++ h ++ ":" ++ m.containerPath ++ ":" ++ m.mode
    | none => "mount:" ++ m.localPath ++ ":" ++ m.containerPath ++ ":" ++ m.mode)
  let p := p ++ c.dataMounts.map (fun m =>
    "datamount:" ++ sha256Hex m.data ++ ":" ++ m.containerPath ++ ":" ++ m.mode)
  let p := p ++ c.tmpfs.map (fun kv => "tmpfs:" ++ kv.1 ++ ":" ++ kv.2)
  let p := if c.envFile = "" then p else
    match c.envFileHash with
    | some h => p ++ ["envfile:" ++ h]
    | none => p ++ ["envfile:" ++ c.envFile]
  let p := p ++ (sortByKey c.envVars).map (fun kv => kv.1 ++ "=" ++ kv.2)
  let p := p ++ (sortByKey c.labels).map (fun kv => "label:" ++ kv.1 ++ "=" ++ kv.2)
  let p := p ++ ["readonly=" ++ (if c.readOnly then "true" else "false")]
  let p := p ++ [String.intercalate "," c.securityOpts]
  let p := p ++ [String.intercalate "," c.capDrop]
  let p := p ++ [String.intercalate "," c.capAdd]
  let p := p ++ [String.intercalate "," c.groupAdd]
  p ++ [c.restart]

/-- `Container.ConfigHash`: SHA-256 hex of the `|`-joined parts. -/
def Container.configHash (c : Container) : String :=
  sha256Hex (utf8Bytes (String.intercalate "|" c.configParts))

/-! ### Firewall configuration and builder (host.go) -/

/-- sdk `FirewallRule`. -/
structure FirewallRule where
  port : Int
  protocol : String
  comment : String
  rateLimit : Bool
deriving Repr, DecidableEq

/-- sdk `FirewallConfig`. -/
structure FirewallConfig where
  enabled : Bool
  defaultIncoming : String
  defaultOutgoing : String
  rules : List FirewallRule
deriving Repr, DecidableEq

/-- `HostBuilder.Firewall()`: the default config (deny in, allow out,
SSH rate-limited, HTTP, HTTPS). -/
def defaultFirewallConfig : FirewallConfig :=
  ⟨true, "deny", "allow",
    [⟨22, "tcp", "SSH", true⟩, ⟨80, "tcp", "HTTP", false⟩, ⟨443, "tcp", "HTTPS", false⟩]⟩

/-- `FirewallBuilder.ClearDefaultRules()`. -/
def clearDefaultRules (cfg : FirewallConfig) : FirewallConfig := { cfg with rules := [] }

/-- `FirewallRuleBuilder.Done()`: append the built rule. -/
def firewallRuleDone (cfg : FirewallConfig) (r : FirewallRule) : FirewallConfig :=
  { cfg with rules := cfg.rules ++ [r] }

/-- The loop in `FirewallBuilder.Done()` scanning for a 22/tcp rule. -/
def hasSSHRule (rules : List FirewallRule) : Bool :=
  rules.any (fun r => r.port == 22 && r.protocol == "tcp")

/-- The rule `FirewallBuilder.Done()` prepends when SSH is missing. -/
def sshAutoRule : FirewallRule := ⟨22, "tcp", "SSH (auto-added)", true⟩

/-- `FirewallBuilder.Done()`: ensure SSH is always allowed, prepending a
rate-limited 22/tcp rule if absent, then attach the config to the host. -/
def firewallDone (cfg : FirewallConfig) : FirewallConfig :=
  if hasSSHRule cfg.rules then cfg
  else { cfg with rules := sshAutoRule :: cfg.rules }

/-! ### Host and Plan (host.go, plan.go) -/

/-- sdk `RegistryCredential`. -/
structure RegistryCredential where
  registry : String
  username : String
  password : String
deriving Repr, DecidableEq

/-- sdk `Host`: endpoint plus per-host phase configuration. -/
structure HostS where
  endpoint : String
  packages : List String
  removePackages : List String
  registries : List RegistryCredential
  firewallConfig : Option FirewallConfig
  hardenDocker : Bool
deriving Repr, DecidableEq

/-- sdk `Plan`: the root aggregate consumed by `Execute`. -/
structure Plan where
  name : String
  hosts : List HostS
  networks : List NetworkS
  volumes : List VolumeS
  containers : List Container
deriving Repr, DecidableEq

def labelConfigSHA : String := "hadron.config.sha"

def labelPlan : String := "hadron.plan"

/-! ### PullImage stdout parsing (internal/docker executor.go) -/

def upToDateNeedle : String := "Status: Image is up to date"

def downloadedNeedle : String := "Status: Downloaded newer image"

/-- `Executor.PullImage`, given the stdout of `docker pull`: `false` when the
Status line reports up to date, `true` when it reports a newer image was
downloaded, `true` (assume pulled) when neither is found. -/
def pullImageResult (stdout : String) : Bool :=
  let output := goTrimSpace stdout
  if goContains output upToDateNeedle then false
  else if goContains output downloadedNeedle then true
  else true

/-! ### Content-addressed upload (internal/docker `uploadContentAddressable`)

The remote filesystem is the set of paths present under the content cache;
`test -f`, `mkdir -p` and the SFTP upload are the issued commands.  Transport
failures of the check/mkdir commands are not modelled (the function then
errors without uploading, which no claim concerns). -/

def permSecretFile : Nat := 0o600

def permPublicFile : Nat := 0o644

def hadronFilesDir : String := "/var/lib/hadron/files/"

structure RemoteFS where
  files : List String
deriving Repr, DecidableEq

/-- Commands `uploadContentAddressable` can issue. -/
inductive UpCmd where
  | checkFile (path : String)
  | mkdirFiles
  | uploadBytes (path : String)
  | chmodFile (path : String)
deriving Repr, DecidableEq

/-- `Executor.uploadContentAddressable`: hash the data, build
`/var/lib/hadron/files/<sha256>`, return early if the file exists, else
mkdir + upload (0600 via `UploadData`), then chmod when a non-default
permission was requested.  Returns the remote path, the new remote
filesystem, and the commands issued. -/
def uploadContentAddressable (fs : RemoteFS) (data : List Nat) (perm : Nat) :
    String × RemoteFS × List UpCmd :=
  let dataHash := sha256Hex data
  let remotePath := hadronFilesDir ++ dataHash
  if fs.files.contains remotePath then
    (remotePath, fs, [UpCmd.checkFile remotePath])
  else
    let t := [UpCmd.checkFile remotePath, UpCmd.mkdirFiles, UpCmd.uploadBytes remotePath]
    let t := if perm ≠ permSecretFile then t ++ [UpCmd.chmodFile remotePath] else t
    (remotePath, ⟨remotePath :: fs.files⟩, t)

/-! ### The reconciler (sdk executor.go), as a trace-producing function

Each executor function returns its result together with the list of remote
commands it issued.  Responses to remote queries come from a `World` oracle;
calls into the internal debian/docker/firewall packages are treated as the
command boundary (one command each), exactly as the executor sees them. -/

/-- One remote command / boundary call issued by the executor. -/
inductive Cmd where
  | resExists (rtype ep name : String)
  | resGetLabel (rtype ep name key : String)
  | resRemove (rtype ep name : String)
  | resCreate (rtype ep name driver : String)
  | pullImage (ep image : String)
  | containerExists (ep name : String)
  | containerGetLabel (ep name key : String)
  | stopContainer (ep name : String)
  | removeContainer (ep name : String) (force : Bool)
  | uploadMount (ep localPath : String)
  | uploadDataMount (ep : String) (data : List Nat)
  | runContainer (ep name image : String)
  | ensureInstalled (ep pkg : String)
  | ensureRemoved (ep pkg : String)
  | daemonConfigExists (ep : String)
  | getDaemonConfig (ep : String)
  | writeDaemonConfig (ep : String)
  | restartDocker (ep : String)
  | waitDockerReady (ep : String)
  | isUnattendedInstalled (ep : String)
  | installUnattended (ep : String)
  | isAutoUpdatesConfigured (ep : String)
  | configureAutoUpdates (ep : String)
  | fwIsInstalled (ep : String)
  | fwInstall (ep : String)
  | fwGetDefaults (ep : String)
  | fwSetDefaults (ep incoming outgoing : String)
  | fwGetRules (ep : String)
  | fwAddRule (ep : String) (port : Int) (protocol : String)
  | fwRemoveRule (ep : String) (port : Int) (protocol : String)
  | fwIsEnabled (ep : String)
  | fwEnable (ep : String)
  | registryLogin (ep registry : String)
deriving Repr, DecidableEq

/-- Responses of the remote side (and of the boundary packages) to each query
the executor can make.  `Except Unit α` models a Go `(α, error)` pair;
`Bool` models a bare `error` result (`true` = success). -/
structure World where
  clientOk : String → Bool
  resExists : String → String → String → Except Unit Bool
  resLabel : String → String → String → String → Except Unit String
  resRemoveOk : String → String → String → Bool
  resCreateOk : String → String → String → Bool
  pullStdout : String → String → Except Unit String
  ctrExists : String → String → Except Unit Bool
  ctrLabel : String → String → String → Except Unit String
  ctrRemoveOk : String → String → Bool
  mountUpload : String → String → Except Unit String
  dataUpload : String → List Nat → Except Unit String
  runOk : String → String → Bool
  pkgInstallOk : String → String → Bool
  pkgRemoveOk : String → String → Bool
  dmnExists : String → Except Unit Bool
  dmnConfigEqual : String → Except Unit Bool
  dmnWriteOk : String → Bool
  dmnRestartOk : String → Bool
  dmnReadyOk : String → Bool
  uuInstalled : String → Except Unit Bool
  uuInstallOk : String → Bool
  auConfigured : String → Except Unit Bool
  auConfigureOk : String → Bool
  fwInstalled : String → Except Unit Bool
  fwInstallOk : String → Bool
  fwDefaults : String → Except Unit (String × String)
  fwSetDefaultsOk : String → Bool
  fwRulesCurrent : String → Except Unit (List FirewallRule)
  fwAddOk : String → FirewallRule → Bool
  fwRemoveOk : String → Int → String → Bool
  fwEnabled : String → Except Unit Bool
  fwEnableOk : String → Bool
  regLoginOk : String → String → Bool

abbrev Res := Except String Unit

instance {ε α : Type} [DecidableEq ε] [DecidableEq α] : DecidableEq (Except ε α) := fun x y =>
  match x, y with
  | .error a, .error b =>
    if h : a = b then isTrue (by rw [h]) else isFalse (fun hc => h (Except.error.inj hc))
  | .error _, .ok _ => isFalse (fun hc => Except.noConfusion hc)
  | .ok _, .error _ => isFalse (fun hc => Except.noConfusion hc)
  | .ok a, .ok b =>
    if h : a = b then isTrue (by rw [h]) else isFalse (fun hc => h (Except.ok.inj hc))

/-- The Go `for _, x := range xs { if err := f(x); err != nil { return err } }`
pattern used by every phase: run `f` on each element, stopping at the first
failure, concatenating issued commands. -/
def deployLoop (f : α → Res × List Cmd) : List α → Res × List Cmd
  | [] => (.ok (), [])
  | x :: xs =>
    match f x with
    | (.error e, t) => (.error e, t)
    | (.ok _, t) =>
      let (r, t2) := deployLoop f xs
      (r, t ++ t2)

def errFailedSSHClient (host : String) : String := "failed to get SSH client for " ++ host

/-- The interface record of `deployResource` (`resourceOperations` in the
source binds the per-type docker executor methods and error values; here the
type tag selects the world accessors and the error strings). -/
structure ResourceOps where
  resourceType : String
  existsError : String
  createError : String

/-- sdk `deployableResource` (Network or Volume). -/
structure DeployableResource where
  name : String
  host : String
  driver : String
  configHash : String
deriving Repr, DecidableEq

def NetworkS.toResource (n : NetworkS) : DeployableResource :=
  ⟨n.name, n.host, n.driver, n.configHash⟩

def VolumeS.toResource (v : VolumeS) : DeployableResource :=
  ⟨v.name, v.host, v.driver, v.configHash⟩

/-- The create step at the end of `deployResource` (labels carry the config
hash and plan name; they do not affect the world). -/
def resCreateStep (w : World) (r : DeployableResource) (ops : ResourceOps) : Res × List Cmd :=
  if w.resCreateOk ops.resourceType r.host r.name then
    (.ok (), [Cmd.resCreate ops.resourceType r.host r.name r.driver])
  else (.error ops.createError, [Cmd.resCreate ops.resourceType r.host r.name r.driver])

/-- The stale branch of `deployResource`: remove the old resource, then
create. -/
def resRemoveCreate (w : World) (r : DeployableResource) (ops : ResourceOps) : Res × List Cmd :=
  if w.resRemoveOk ops.resourceType r.host r.name then
    let (res, t) := resCreateStep w r ops
    (res, Cmd.resRemove ops.resourceType r.host r.name :: t)
  else
    (.error ("failed to remove old " ++ ops.resourceType),
      [Cmd.resRemove ops.resourceType r.host r.name])

/-- sdk `executor.deployResource`: existence check; if present, read the
`hadron.config.sha` label — equal hash skips, a read failure logs a warning
and recreates, a different hash recreates; then create with tracking
labels. -/
def deployResource (w : World) (r : DeployableResource) (ops : ResourceOps) : Res × List Cmd :=
  if w.clientOk r.host then
    match w.resExists ops.resourceType r.host r.name with
    | .error _ => (.error ops.existsError, [Cmd.resExists ops.resourceType r.host r.name])
    | .ok true =>
      let pre := [Cmd.resExists ops.resourceType r.host r.name,
        Cmd.resGetLabel ops.resourceType r.host r.name labelConfigSHA]
      match w.resLabel ops.resourceType r.host r.name labelConfigSHA with
      | .ok existingHash =>
        if existingHash == r.configHash then (.ok (), pre)
        else
          let (res, t) := resRemoveCreate w r ops
          (res, pre ++ t)
      | .error _ =>
        let (res, t) := resRemoveCreate w r ops
        (res, pre ++ t)
    | .ok false =>
      let (res, t) := resCreateStep w r ops
      (res, Cmd.resExists ops.resourceType r.host r.name :: t)
  else (.error (errFailedSSHClient r.host), [])

def networkOps : ResourceOps :=
  ⟨"network", "failed to check network existence", "failed to create network"⟩

def volumeOps : ResourceOps :=
  ⟨"volume", "failed to check volume existence", "failed to create volume"⟩

/-- sdk `executor.deployNetwork`. -/
def deployNetwork (w : World) (n : NetworkS) : Res × List Cmd :=
  deployResource w n.toResource networkOps

/-- sdk `executor.deployVolume`. -/
def deployVolume (w : World) (v : VolumeS) : Res × List Cmd :=
  deployResource w v.toResource volumeOps

/-- sdk `executor.deployNetworks`. -/
def deployNetworks (w : World) (p : Plan) : Res × List Cmd :=
  deployLoop (deployNetwork w) p.networks

/-- sdk `executor.deployVolumes`. -/
def deployVolumes (w : World) (p : Plan) : Res × List Cmd :=
  deployLoop (deployVolume w) p.volumes

/-- The file-mount upload loop in `deployContainer`. -/
def mountsLoop (w : World) (ep : String) : List FileMount → Res × List Cmd
  | [] => (.ok (), [])
  | m :: rest =>
    match w.mountUpload ep m.localPath with
    | .error _ =>
      (.error ("failed to upload mount " ++ m.localPath), [Cmd.uploadMount ep m.localPath])
    | .ok _ =>
      let (r, t) := mountsLoop w ep rest
      (r, Cmd.uploadMount ep m.localPath :: t)

/-- The data-mount upload loop in `deployContainer`. -/
def dataMountsLoop (w : World) (ep : String) : List DataMount → Res × List Cmd
  | [] => (.ok (), [])
  | m :: rest =>
    match w.dataUpload ep m.data with
    | .error _ => (.error "failed to upload data mount", [Cmd.uploadDataMount ep m.data])
    | .ok _ =>
      let (r, t) := dataMountsLoop w ep rest
      (r, Cmd.uploadDataMount ep m.data :: t)

/-- The tail of `deployContainer`: upload file and data mounts, then
`RunContainer` with the tracking labels. -/
def createAndRun (w : World) (c : Container) : Res × List Cmd :=
  match mountsLoop w c.host c.mounts with
  | (.error e, t) => (.error e, t)
  | (.ok _, t) =>
    match dataMountsLoop w c.host c.dataMounts with
    | (.error e, t2) => (.error e, t ++ t2)
    | (.ok _, t2) =>
      if w.runOk c.host c.name then
        (.ok (), t ++ t2 ++ [Cmd.runContainer c.host c.name c.image])
      else (.error "failed to run container", t ++ t2 ++ [Cmd.runContainer c.host c.name c.image])

/-- The update branch of `deployContainer` ("For MVP, stop and remove old
container" — a failed stop only logs a warning; a failed remove aborts). -/
def replaceAndRun (w : World) (c : Container) : Res × List Cmd :=
  let pre := [Cmd.stopContainer c.host c.name, Cmd.removeContainer c.host c.name true]
  if w.ctrRemoveOk c.host c.name then
    let (r, t) := createAndRun w c
    (r, pre ++ t)
  else (.error "failed to remove old container", pre)

/-- sdk `executor.deployContainer`: always pull first (to detect image
updates); if the container exists, read the config-hash label — unchanged
hash *and* no newer image skips; otherwise (including a label read failure,
which only logs a warning) stop and remove the old container in place, then
upload mounts and run the new one.  No health check is performed and no
rollback exists (both are TODO comments in the source). -/
def deployContainer (w : World) (c : Container) : Res × List Cmd :=
  if w.clientOk c.host then
    match w.pullStdout c.host c.image with
    | .error _ => (.error "failed to pull image", [Cmd.pullImage c.host c.image])
    | .ok out =>
      let imagePulled := pullImageResult out
      let pre := [Cmd.pullImage c.host c.image, Cmd.containerExists c.host c.name]
      match w.ctrExists c.host c.name with
      | .error _ => (.error "failed to check container existence", pre)
      | .ok true =>
        let pre := pre ++ [Cmd.containerGetLabel c.host c.name labelConfigSHA]
        match w.ctrLabel c.host c.name labelConfigSHA with
        | .ok existingHash =>
          if existingHash == c.configHash && !imagePulled then (.ok (), pre)
          else
            let (r, t) := replaceAndRun w c
            (r, pre ++ t)
        | .error _ =>
          let (r, t) := replaceAndRun w c
          (r, pre ++ t)
      | .ok false =>
        let (r, t) := createAndRun w c
        (r, pre ++ t)
  else (.error (errFailedSSHClient c.host), [])

/-- sdk `executor.deployContainers`: "TODO: Implement dependency resolution
and ordering / For MVP, deploy in order defined in plan" — a plain loop in
declaration order, no topological sort, no cycle detection. -/
def deployContainers (w : World) (p : Plan) : Res × List Cmd :=
  deployLoop (deployContainer w) p.containers

/-- The install loop of `deployHostPackages`. -/
def installLoop (w : World) (ep : String) : List String → Res × List Cmd
  | [] => (.ok (), [])
  | pkg :: rest =>
    if w.pkgInstallOk ep pkg then
      let (r, t) := installLoop w ep rest
      (r, Cmd.ensureInstalled ep pkg :: t)
    else
      (.error ("failed to install package " ++ pkg ++ " on " ++ ep),
        [Cmd.ensureInstalled ep pkg])

/-- The removal loop of `deployHostPackages`. -/
def removeLoop (w : World) (ep : String) : List String → Res × List Cmd
  | [] => (.ok (), [])
  | pkg :: rest =>
    if w.pkgRemoveOk ep pkg then
      let (r, t) := removeLoop w ep rest
      (r, Cmd.ensureRemoved ep pkg :: t)
    else
      (.error ("failed to remove package " ++ pkg ++ " from " ++ ep),
        [Cmd.ensureRemoved ep pkg])

/-- sdk `executor.deployHostPackages`: skip when nothing to do, else install
then remove. -/
def deployHostPackages (w : World) (h : HostS) : Res × List Cmd :=
  if h.packages.isEmpty && h.removePackages.isEmpty then (.ok (), [])
  else if w.clientOk h.endpoint then
    match installLoop w h.endpoint h.packages with
    | (.error e, t) => (.error e, t)
    | (.ok _, t) =>
      let (r, t2) := removeLoop w h.endpoint h.removePackages
      (r, t ++ t2)
  else (.error (errFailedSSHClient h.endpoint), [])

/-- sdk `executor.deployPackages`: loop over hosts, first failure aborts. -/
def deployPackages (w : World) (p : Plan) : Res × List Cmd :=
  deployLoop (deployHostPackages w) p.hosts

/-- The write/restart tail of `deployHostDockerDaemon` (every path that
reaches the write has `needsRestart = true` in the source). -/
def daemonWriteRestart (w : World) (ep : String) : Res × List Cmd :=
  if w.dmnWriteOk ep then
    if w.dmnRestartOk ep then
      if w.dmnReadyOk ep then
        (.ok (), [Cmd.writeDaemonConfig ep, Cmd.restartDocker ep, Cmd.waitDockerReady ep])
      else
        (.error ("docker daemon failed to become ready on " ++ ep),
          [Cmd.writeDaemonConfig ep, Cmd.restartDocker ep, Cmd.waitDockerReady ep])
    else
      (.error ("failed to restart docker daemon on " ++ ep),
        [Cmd.writeDaemonConfig ep, Cmd.restartDocker ep])
  else (.error ("failed to write daemon config on " ++ ep), [Cmd.writeDaemonConfig ep])

/-- sdk `executor.deployHostDockerDaemon`: skip unless hardening requested;
check config existence; when present and equal to the secure defaults
(`docker.ConfigsEqual`, a boundary call answered by the world), skip;
otherwise write and restart. -/
def deployHostDockerDaemon (w : World) (h : HostS) : Res × List Cmd :=
  if !h.hardenDocker then (.ok (), [])
  else if w.clientOk h.endpoint then
    match w.dmnExists h.endpoint with
    | .error _ =>
      (.error ("failed to check daemon config on " ++ h.endpoint),
        [Cmd.daemonConfigExists h.endpoint])
    | .ok true =>
      let pre := [Cmd.daemonConfigExists h.endpoint, Cmd.getDaemonConfig h.endpoint]
      match w.dmnConfigEqual h.endpoint with
      | .ok true => (.ok (), pre)
      | .ok false =>
        let (r, t) := daemonWriteRestart w h.endpoint
        (r, pre ++ t)
      | .error _ =>
        let (r, t) := daemonWriteRestart w h.endpoint
        (r, pre ++ t)
    | .ok false =>
      let (r, t) := daemonWriteRestart w h.endpoint
      (r, Cmd.daemonConfigExists h.endpoint :: t)
  else (.error (errFailedSSHClient h.endpoint), [])

/-- sdk `executor.deployDockerDaemon`. -/
def deployDockerDaemon (w : World) (p : Plan) : Res × List Cmd :=
  deployLoop (deployHostDockerDaemon w) p.hosts

/-- sdk `executor.deployHostAutoUpdates` (runs for every host, no opt-out):
install unattended-upgrades when missing, configure auto-updates when not
configured. -/
def deployHostAutoUpdates (w : World) (h : HostS) : Res × List Cmd :=
  if w.clientOk h.endpoint then
    match w.uuInstalled h.endpoint with
    | .error _ =>
      (.error ("failed to check if unattended-upgrades is installed on " ++ h.endpoint),
        [Cmd.isUnattendedInstalled h.endpoint])
    | .ok installed =>
      let t1 := if installed then [Cmd.isUnattendedInstalled h.endpoint]
        else [Cmd.isUnattendedInstalled h.endpoint, Cmd.installUnattended h.endpoint]
      if !installed && !w.uuInstallOk h.endpoint then
        (.error ("failed to install unattended-upgrades on " ++ h.endpoint), t1)
      else
        match w.auConfigured h.endpoint with
        | .error _ =>
          (.error ("failed to check auto-updates configuration on " ++ h.endpoint),
            t1 ++ [Cmd.isAutoUpdatesConfigured h.endpoint])
        | .ok configured =>
          let t2 := if configured then t1 ++ [Cmd.isAutoUpdatesConfigured h.endpoint]
            else t1 ++ [Cmd.isAutoUpdatesConfigured h.endpoint,
              Cmd.configureAutoUpdates h.endpoint]
          if !configured && !w.auConfigureOk h.endpoint then
            (.error ("failed to configure automatic updates on " ++ h.endpoint), t2)
          else (.ok (), t2)
  else (.error (errFailedSSHClient h.endpoint), [])

/-- sdk `executor.deployAutoUpdates`. -/
def deployAutoUpdates (w : World) (p : Plan) : Res × List Cmd :=
  deployLoop (deployHostAutoUpdates w) p.hosts

/-- internal/firewall `RulesEqual` (comments ignored). -/
def rulesEqual (r1 r2 : FirewallRule) : Bool :=
  r1.port == r2.port && r1.protocol == r2.protocol && r1.rateLimit == r2.rateLimit

/-- internal/firewall `FindRule`. -/
def findRule (rules : List FirewallRule) (port : Int) (protocol : String) :
    Option FirewallRule :=
  rules.find? (fun r => r.port == port && r.protocol == protocol)

/-- sdk `executor.syncFirewallRules`: add missing rules, recreate changed
ones. -/
def syncFirewallRules (w : World) (ep : String) (current : List FirewallRule) :
    List FirewallRule → Res × List Cmd
  | [] => (.ok (), [])
  | d :: rest =>
    match findRule current d.port d.protocol with
    | none =>
      if w.fwAddOk ep d then
        let (r, t) := syncFirewallRules w ep current rest
        (r, Cmd.fwAddRule ep d.port d.protocol :: t)
      else
        (.error ("failed to add firewall rule on " ++ ep), [Cmd.fwAddRule ep d.port d.protocol])
    | some ex =>
      if rulesEqual ex d then syncFirewallRules w ep current rest
      else
        if w.fwRemoveOk ep ex.port ex.protocol then
          if w.fwAddOk ep d then
            let (r, t) := syncFirewallRules w ep current rest
            (r, Cmd.fwRemoveRule ep ex.port ex.protocol :: Cmd.fwAddRule ep d.port d.protocol :: t)
          else
            (.error ("failed to add firewall rule on " ++ ep),
              [Cmd.fwRemoveRule ep ex.port ex.protocol, Cmd.fwAddRule ep d.port d.protocol])
        else
          (.error ("failed to remove old firewall rule on " ++ ep),
            [Cmd.fwRemoveRule ep ex.port ex.protocol])

/-- The removal loop of `deployHostFirewall`: drop current rules not in the
desired configuration. -/
def removeUnwantedRules (w : World) (ep : String) (desired : List FirewallRule) :
    List FirewallRule → Res × List Cmd
  | [] => (.ok (), [])
  | cur :: rest =>
    match findRule desired cur.port cur.protocol with
    | some _ => removeUnwantedRules w ep desired rest
    | none =>
      if w.fwRemoveOk ep cur.port cur.protocol then
        let (r, t) := removeUnwantedRules w ep desired rest
        (r, Cmd.fwRemoveRule ep cur.port cur.protocol :: t)
      else
        (.error ("failed to remove firewall rule on " ++ ep),
          [Cmd.fwRemoveRule ep cur.port cur.protocol])

/-- The enable tail of `deployHostFirewall`. -/
def firewallEnableStep (w : World) (ep : String) : Res × List Cmd :=
  match w.fwEnabled ep with
  | .error _ =>
    (.error ("failed to check if firewall is enabled on " ++ ep), [Cmd.fwIsEnabled ep])
  | .ok true => (.ok (), [Cmd.fwIsEnabled ep])
  | .ok false =>
    if w.fwEnableOk ep then (.ok (), [Cmd.fwIsEnabled ep, Cmd.fwEnable ep])
    else (.error ("failed to enable firewall on " ++ ep), [Cmd.fwIsEnabled ep, Cmd.fwEnable ep])

/-- The rules/enable tail of `deployHostFirewall` after defaults handling. -/
def firewallRulesPhase (w : World) (ep : String) (cfg : FirewallConfig) : Res × List Cmd :=
  match w.fwRulesCurrent ep with
  | .error _ =>
    (.error ("failed to get current firewall rules on " ++ ep), [Cmd.fwGetRules ep])
  | .ok currentRules =>
    match syncFirewallRules w ep currentRules cfg.rules with
    | (.error e, t) => (.error e, Cmd.fwGetRules ep :: t)
    | (.ok _, t) =>
      match removeUnwantedRules w ep cfg.rules currentRules with
      | (.error e, t2) => (.error e, Cmd.fwGetRules ep :: (t ++ t2))
      | (.ok _, t2) =>
        let (r, t3) := firewallEnableStep w ep
        (r, Cmd.fwGetRules ep :: (t ++ t2 ++ t3))

/-- sdk `executor.deployHostFirewall`: skip without an enabled config;
install ufw when missing; read defaults (a failure only warns and forces a
set); set defaults when they differ; then sync rules, remove unwanted ones,
and enable. -/
def deployHostFirewall (w : World) (h : HostS) : Res × List Cmd :=
  match h.firewallConfig with
  | none => (.ok (), [])
  | some cfg =>
    if !cfg.enabled then (.ok (), [])
    else if w.clientOk h.endpoint then
      match w.fwInstalled h.endpoint with
      | .error _ =>
        (.error ("failed to check if ufw is installed on " ++ h.endpoint),
          [Cmd.fwIsInstalled h.endpoint])
      | .ok installed =>
        let t1 := if installed then [Cmd.fwIsInstalled h.endpoint]
          else [Cmd.fwIsInstalled h.endpoint, Cmd.fwInstall h.endpoint]
        if !installed && !w.fwInstallOk h.endpoint then
          (.error ("failed to install ufw on " ++ h.endpoint), t1)
        else
          let cur := match w.fwDefaults h.endpoint with
            | .ok c => c
            | .error _ => ("", "")
          let t2 := t1 ++ [Cmd.fwGetDefaults h.endpoint]
          if cur.1 != cfg.defaultIncoming || cur.2 != cfg.defaultOutgoing then
            let t3 := t2 ++ [Cmd.fwSetDefaults h.endpoint cfg.defaultIncoming cfg.defaultOutgoing]
            if w.fwSetDefaultsOk h.endpoint then
              let (r, t4) := firewallRulesPhase w h.endpoint cfg
              (r, t3 ++ t4)
            else (.error ("failed to set firewall defaults on " ++ h.endpoint), t3)
          else
            let (r, t4) := firewallRulesPhase w h.endpoint cfg
            (r, t2 ++ t4)
    else (.error (errFailedSSHClient h.endpoint), [])

/-- sdk `executor.deployFirewalls`. -/
def deployFirewalls (w : World) (p : Plan) : Res × List Cmd :=
  deployLoop (deployHostFirewall w) p.hosts

/-- The registry loop of `loginHostRegistries`. -/
def registriesLoop (w : World) (ep : String) : List RegistryCredential → Res × List Cmd
  | [] => (.ok (), [])
  | reg :: rest =>
    if w.regLoginOk ep reg.registry then
      let (r, t) := registriesLoop w ep rest
      (r, Cmd.registryLogin ep reg.registry :: t)
    else
      (.error ("failed to login to registry " ++ reg.registry ++ " on " ++ ep),
        [Cmd.registryLogin ep reg.registry])

/-- sdk `executor.loginHostRegistries`. -/
def loginHostRegistries (w : World) (h : HostS) : Res × List Cmd :=
  if h.registries.isEmpty then (.ok (), [])
  else if w.clientOk h.endpoint then registriesLoop w h.endpoint h.registries
  else (.error (errFailedSSHClient h.endpoint), [])

/-- sdk `executor.loginRegistries`. -/
def loginRegistries (w : World) (p : Plan) : Res × List Cmd :=
  deployLoop (loginHostRegistries w) p.hosts

/-- sdk `executor.execute` / `Plan.Execute`: the eight phases in order, each
wrapping and returning the first failure — phases loop over all hosts
*inside* each phase, and any failure aborts the whole run. -/
def executeRun (w : World) (p : Plan) : Res × List Cmd :=
  match deployPackages w p with
  | (.error e, t) => (.error ("failed to deploy packages: " ++ e), t)
  | (.ok _, t1) =>
    match deployDockerDaemon w p with
    | (.error e, t) => (.error ("failed to deploy docker daemon config: " ++ e), t1 ++ t)
    | (.ok _, t2) =>
      match deployAutoUpdates w p with
      | (.error e, t) => (.error ("failed to deploy automatic updates: " ++ e), t1 ++ t2 ++ t)
      | (.ok _, t3) =>
        match deployFirewalls w p with
        | (.error e, t) => (.error ("failed to deploy firewalls: " ++ e), t1 ++ t2 ++ t3 ++ t)
        | (.ok _, t4) =>
          match loginRegistries w p with
          | (.error e, t) =>
            (.error ("failed to login to registries: " ++ e), t1 ++ t2 ++ t3 ++ t4 ++ t)
          | (.ok _, t5) =>
            match deployNetworks w p with
            | (.error e, t) =>
              (.error ("failed to deploy networks: " ++ e), t1 ++ t2 ++ t3 ++ t4 ++ t5 ++ t)
            | (.ok _, t6) =>
              match deployVolumes w p with
              | (.error e, t) =>
                (.error ("failed to deploy volumes: " ++ e),
                  t1 ++ t2 ++ t3 ++ t4 ++ t5 ++ t6 ++ t)
              | (.ok _, t7) =>
                match deployContainers w p with
                | (.error e, t) =>
                  (.error ("failed to deploy containers: " ++ e),
                    t1 ++ t2 ++ t3 ++ t4 ++ t5 ++ t6 ++ t7 ++ t)
                | (.ok _, t8) =>
                  (.ok (), t1 ++ t2 ++ t3 ++ t4 ++ t5 ++ t6 ++ t7 ++ t8)

/-- sdk `Plan.DryRun` (plan.go): logs a heading and returns
`errDryRunNotImplemented` — "TODO: Implement dry run logic"; it issues no
commands and computes no decisions. -/
def dryRun (_ : Plan) : Res × List Cmd :=
  (.error "dry run not yet implemented", [])

/-- Docker mutations on networks, volumes and containers: the create, remove
and docker-run (plus stop) commands — the commands an idempotent second run
must not issue. -/
def isDockerMut : Cmd → Bool
  | Cmd.resRemove _ _ _ => true
  | Cmd.resCreate _ _ _ _ => true
  | Cmd.stopContainer _ _ => true
  | Cmd.removeContainer _ _ _ => true
  | Cmd.runContainer _ _ _ => true
  | _ => false

/-- No docker mutation among the issued commands. -/
def MutFree (l : List Cmd) : Prop := l.filter isDockerMut = []

/-- The host an issued command addresses. -/
def cmdHost : Cmd → String
  | Cmd.resExists _ ep _ => ep
  | Cmd.resGetLabel _ ep _ _ => ep
  | Cmd.resRemove _ ep _ => ep
  | Cmd.resCreate _ ep _ _ => ep
  | Cmd.pullImage ep _ => ep
  | Cmd.containerExists ep _ => ep
  | Cmd.containerGetLabel ep _ _ => ep
  | Cmd.stopContainer ep _ => ep
  | Cmd.removeContainer ep _ _ => ep
  | Cmd.uploadMount ep _ => ep
  | Cmd.uploadDataMount ep _ => ep
  | Cmd.runContainer ep _ _ => ep
  | Cmd.ensureInstalled ep _ => ep
  | Cmd.ensureRemoved ep _ => ep
  | Cmd.daemonConfigExists ep => ep
  | Cmd.getDaemonConfig ep => ep
  | Cmd.writeDaemonConfig ep => ep
  | Cmd.restartDocker ep => ep
  | Cmd.waitDockerReady ep => ep
  | Cmd.isUnattendedInstalled ep => ep
  | Cmd.installUnattended ep => ep
  | Cmd.isAutoUpdatesConfigured ep => ep
  | Cmd.configureAutoUpdates ep => ep
  | Cmd.fwIsInstalled ep => ep
  | Cmd.fwInstall ep => ep
  | Cmd.fwGetDefaults ep => ep
  | Cmd.fwSetDefaults ep _ _ => ep
  | Cmd.fwGetRules ep => ep
  | Cmd.fwAddRule ep _ _ => ep
  | Cmd.fwRemoveRule ep _ _ => ep
  | Cmd.fwIsEnabled ep => ep
  | Cmd.fwEnable ep => ep
  | Cmd.registryLogin ep _ => ep

/-! ### Concrete inputs for counterexamples and witnesses -/

/-- A container with only the mandatory fields set (as the builder would
produce with image/host given and the default restart policy). -/
def baseContainer (name host image : String) : Container :=
  { name := name, host := host, image := image, command := [], user := "", memory := "",
    memoryReservation := "", cpuShares := 0, cpus := "", pidsLimit := 0, hostname := "",
    networks := [], networkAlias := "", ports := [], extraHosts := [], volumes := [],
    mounts := [], dataMounts := [], tmpfs := [], envFile := "", envFileHash := none,
    envVars := [], labels := [], healthCheck := none, dependsOn := [], readOnly := false,
    securityOpts := [], capDrop := [], capAdd := [], groupAdd := [],
    restart := "unless-stopped" }

/-- A world in which every remote query succeeds and reports the happy path
(nothing exists yet, label reads fail, images download, daemon and firewall
already configured); concrete scenarios override individual fields. -/
def okWorld : World where
  clientOk := fun _ => true
  resExists := fun _ _ _ => .ok false
  resLabel := fun _ _ _ _ => .error ()
  resRemoveOk := fun _ _ _ => true
  resCreateOk := fun _ _ _ => true
  pullStdout := fun _ _ => .ok "Status: Downloaded newer image for image"
  ctrExists := fun _ _ => .ok false
  ctrLabel := fun _ _ _ => .error ()
  ctrRemoveOk := fun _ _ => true
  mountUpload := fun _ _ => .ok "/var/lib/hadron/files/m"
  dataUpload := fun _ _ => .ok "/var/lib/hadron/files/d"
  runOk := fun _ _ => true
  pkgInstallOk := fun _ _ => true
  pkgRemoveOk := fun _ _ => true
  dmnExists := fun _ => .ok true
  dmnConfigEqual := fun _ => .ok true
  dmnWriteOk := fun _ => true
  dmnRestartOk := fun _ => true
  dmnReadyOk := fun _ => true
  uuInstalled := fun _ => .ok true
  uuInstallOk := fun _ => true
  auConfigured := fun _ => .ok true
  auConfigureOk := fun _ => true
  fwInstalled := fun _ => .ok true
  fwInstallOk := fun _ => true
  fwDefaults := fun _ => .ok ("deny", "allow")
  fwSetDefaultsOk := fun _ => true
  fwRulesCurrent := fun _ => .ok []
  fwAddOk := fun _ _ => true
  fwRemoveOk := fun _ _ _ => true
  fwEnabled := fun _ => .ok true
  fwEnableOk := fun _ => true
  regLoginOk := fun _ _ => true

/-- A host with no package/firewall/registry/daemon configuration. -/
def bareHost (ep : String) : HostS := ⟨ep, [], [], [], none, false⟩

/-- C1 scenario: an existing container with a declared HealthCheck whose
stored label differs from the declared hash (stale), whose image is already
up to date, and whose replacement `docker run` fails. -/
def ctr1 : Container :=
  { baseContainer "web" "h1" "img:v2" with healthCheck := some (httpCheck "/health" 80) }

def plan1 : Plan := ⟨"p1", [bareHost "h1"], [], [], [ctr1]⟩

def world1 : World :=
  { okWorld with
    pullStdout := fun _ _ => .ok "Status: Image is up to date for img:v2"
    ctrExists := fun _ _ => .ok true
    ctrLabel := fun _ _ _ => .ok "stale-hash"
    runOk := fun _ _ => false }

/-- C2 scenario: A declared before B, A depends on B; and a two-container
DependsOn cycle. -/
def ctrA : Container := { baseContainer "app-a" "h1" "img-a" with dependsOn := ["app-b"] }

def ctrB : Container := baseContainer "app-b" "h1" "img-b"

def plan2 : Plan := ⟨"p2", [bareHost "h1"], [], [], [ctrA, ctrB]⟩

def ctrX : Container := { baseContainer "app-x" "h1" "img-x" with dependsOn := ["app-y"] }

def ctrY : Container := { baseContainer "app-y" "h1" "img-y" with dependsOn := ["app-x"] }

def planCycle : Plan := ⟨"pc", [bareHost "h1"], [], [], [ctrX, ctrY]⟩

def world2 : World := { okWorld with ctrExists := fun _ _ => .ok false }

/-- C3 witness scenario: one host, one network, one volume, one container,
all present remotely with matching labels and an up-to-date image. -/
def net3 : NetworkS := ⟨"n1", "h1", "bridge"⟩

def vol3 : VolumeS := ⟨"v1", "h1", "local"⟩

def ctr3 : Container := baseContainer "c1" "h1" "img@sha256:abc"

def plan3 : Plan := ⟨"demo", [bareHost "h1"], [net3], [vol3], [ctr3]⟩

def world3 : World :=
  { okWorld with
    resExists := fun _ _ _ => .ok true
    resLabel := fun rt _ _ _ =>
      if rt = "network" then .ok net3.configHash else .ok vol3.configHash
    ctrExists := fun _ _ => .ok true
    ctrLabel := fun _ _ _ => .ok ctr3.configHash
    pullStdout := fun _ _ => .ok "Status: Image is up to date for img@sha256:abc" }

/-- C5 witness scenario: existing container, matching label, up-to-date
image. -/
def ctr5 : Container := baseContainer "svc" "h1" "img:tag"

def world5 : World :=
  { okWorld with
    ctrExists := fun _ _ => .ok true
    ctrLabel := fun _ _ _ => .ok ctr5.configHash
    pullStdout := fun _ _ => .ok "Status: Image is up to date for img:tag" }

/-- C7 witness scenario: resources exist but their label reads fail. -/
def net7 : NetworkS := ⟨"n7", "h1", "bridge"⟩

def vol7 : VolumeS := ⟨"v7", "h1", "local"⟩

def ctr7 : Container := baseContainer "c7" "h1" "img7"

def world7 : World :=
  { okWorld with
    resExists := fun _ _ _ => .ok true
    ctrExists := fun _ _ => .ok true
    pullStdout := fun _ _ => .ok "Status: Image is up to date for img7" }

/-- C8 scenario: two hosts each installing a package; installation fails on
h1, succeeds on h2. -/
def host81 : HostS := ⟨"h1", ["docker"], [], [], none, false⟩

def host82 : HostS := ⟨"h2", ["docker"], [], [], none, false⟩

def plan8 : Plan := ⟨"p8", [host81, host82], [], [], []⟩

def world8 : World := { okWorld with pkgInstallOk := fun ep _ => ep != "h1" }

/-- Two tmpfs mounts, iteration order `/a` then `/b`. -/
def tmpfsContainerA : Container :=
  { baseContainer "app" "h1" "img" with
    tmpfs := [("/a", "noexec,nosuid,nodev"), ("/b", "noexec,nosuid,nodev")] }

/-- The same container with the same tmpfs map iterated `/b` then `/a`. -/
def tmpfsContainerB : Container :=
  { tmpfsContainerA with tmpfs := tmpfsContainerA.tmpfs.reverse }

/-- Witness pair for hash determinism: same env-var map, two insertion
orders. -/
def envContainerA : Container :=
  { baseContainer "app" "h1" "img" with
    envVars := [("FOO", "1"), ("BAR", "2")], labels := [("k1", "v1"), ("k2", "v2")],
    networks := ["net-b", "net-a"] }

def envContainerB : Container :=
  { envContainerA with
    envVars := [("BAR", "2"), ("FOO", "1")], labels := [("k2", "v2"), ("k1", "v1")],
    networks := ["net-a", "net-b"] }

/-! ### Theorems -/

theorem sortStrings_perm_eq {l₁ l₂ : List String} (hp : l₁.Perm l₂) :
    sortStrings l₁ = sortStrings l₂ :=
  List.eq_of_perm_of_sorted
    ((List.perm_insertionSort _ l₁).trans (hp.trans (List.perm_insertionSort _ l₂).symm))
    (List.sorted_insertionSort _ l₁) (List.sorted_insertionSort _ l₂)

theorem sorted_keyLt_of_sorted_nodup {l : List (String × String)}
    (hs : List.Sorted keyLe l) (hk : (l.map Prod.fst).Nodup) : List.Sorted keyLt l := by
  have hne : List.Pairwise (fun a b : String × String => a.1 ≠ b.1) l := by
    rw [List.Nodup, List.pairwise_map] at hk
    exact hk
  exact (hs.and hne).imp (fun h => lt_of_le_of_ne h.1 h.2)

theorem sortByKey_perm_eq {l₁ l₂ : List (String × String)} (hp : l₁.Perm l₂)
    (hk : (l₁.map Prod.fst).Nodup) : sortByKey l₁ = sortByKey l₂ := by
  have hperm : (sortByKey l₁).Perm (sortByKey l₂) :=
    (List.perm_insertionSort keyLe l₁).trans (hp.trans (List.perm_insertionSort keyLe l₂).symm)
  have hk2 : (l₂.map Prod.fst).Nodup := ((hp.map Prod.fst).nodup_iff).mp hk
  have k1 : ((sortByKey l₁).map Prod.fst).Nodup :=
    (((List.perm_insertionSort keyLe l₁).map Prod.fst).nodup_iff).mpr hk
  have k2 : ((sortByKey l₂).map Prod.fst).Nodup :=
    (((List.perm_insertionSort keyLe l₂).map Prod.fst).nodup_iff).mpr hk2
  exact List.eq_of_perm_of_sorted hperm
    (sorted_keyLt_of_sorted_nodup (List.sorted_insertionSort keyLe l₁) k1)
    (sorted_keyLt_of_sorted_nodup (List.sorted_insertionSort keyLe l₂) k2)

/-- C4 (counterexample): two Container values with identical logical fields —
the same two-entry tmpfs map, presented in the two iteration orders Go's
unspecified map order can produce — yield different ConfigHash digests,
because the tmpfs loop in `Container.ConfigHash` does not sort the map by
key. -/
theorem configHash_tmpfs_order_dependent :
    tmpfsContainerB = { tmpfsContainerA with tmpfs := tmpfsContainerA.tmpfs.reverse } ∧
    tmpfsContainerA.tmpfs.Perm tmpfsContainerB.tmpfs ∧
    (tmpfsContainerA.tmpfs.map Prod.fst).Nodup ∧
    tmpfsContainerA.configHash ≠ tmpfsContainerB.configHash := by
  refine ⟨rfl, by decide, by decide, by decide⟩

/-- C4 (amended): `Container.ConfigHash` is deterministic in the order of the
env-var map, the label map and the network list — those three unordered
collections are sorted by key before hashing, so any reordering of them
yields the same digest; the tmpfs map is the exception, hashed in iteration
order. -/
theorem configHash_sorted_collections_deterministic
    (c : Container) (env2 lab2 : List (String × String)) (net2 : List String)
    (he : c.envVars.Perm env2) (hek : (c.envVars.map Prod.fst).Nodup)
    (hl : c.labels.Perm lab2) (hlk : (c.labels.map Prod.fst).Nodup)
    (hn : c.networks.Perm net2) :
    Container.configHash { c with envVars := env2, labels := lab2, networks := net2 } =
      c.configHash := by
  have hes : sortByKey env2 = sortByKey c.envVars := (sortByKey_perm_eq he hek).symm
  have hls : sortByKey lab2 = sortByKey c.labels := (sortByKey_perm_eq hl hlk).symm
  have hns : sortStrings net2 = sortStrings c.networks := (sortStrings_perm_eq hn).symm
  have hnl : net2.length = c.networks.length := hn.length_eq.symm
  simp only [Container.configHash, Container.configParts, hes, hls, hns, hnl]

/-- C4 witness: the amended determinism theorem applied to a concrete
container whose env-var map, label map and network list appear in two
different orders. -/
theorem configHash_sorted_collections_deterministic_witness :
    envContainerA.envVars.Perm envContainerB.envVars ∧
    envContainerB.configHash = envContainerA.configHash := by
  refine ⟨by decide, ?_⟩
  exact configHash_sorted_collections_deterministic envContainerA
    envContainerB.envVars envContainerB.labels envContainerB.networks
    (by decide) (by decide) (by decide) (by decide) (by decide)

theorem uploadContentAddressable_fst (fs : RemoteFS) (data : List Nat) (perm : Nat) :
    (uploadContentAddressable fs data perm).1 = hadronFilesDir ++ sha256Hex data := by
  unfold uploadContentAddressable
  by_cases h : (hadronFilesDir ++ sha256Hex data) ∈ fs.files <;> simp [h]

/-- C6: every content-addressed upload (the path taken by env files,
generated env-var files, single-file mounts and data mounts) stores the
bytes at `/var/lib/hadron/files/` + SHA-256 hex of the bytes; uploading the
same bytes again to the same host issues only the existence check, rewriting
nothing; and two contents land on the same remote path exactly when their
SHA-256 digests agree — in particular the concrete one-byte-apart contents
`[97]` and `[98]` get distinct paths. -/
theorem upload_content_addressed_spec :
    (∀ (fs : RemoteFS) (data : List Nat) (perm : Nat),
      (uploadContentAddressable fs data perm).1 = "/var/lib/hadron/files/" ++ sha256Hex data) ∧
    (∀ (fs : RemoteFS) (data : List Nat) (perm perm2 : Nat),
      uploadContentAddressable (uploadContentAddressable fs data perm).2.1 data perm2 =
        ((uploadContentAddressable fs data perm).1,
          (uploadContentAddressable fs data perm).2.1,
          [UpCmd.checkFile (uploadContentAddressable fs data perm).1])) ∧
    (∀ (fs : RemoteFS) (d1 d2 : List Nat) (p1 p2 : Nat),
      ((uploadContentAddressable fs d1 p1).1 = (uploadContentAddressable fs d2 p2).1 ↔
        sha256Hex d1 = sha256Hex d2)) ∧
    sha256Hex [97] ≠ sha256Hex [98] := by
  refine ⟨fun fs data perm => uploadContentAddressable_fst fs data perm, ?_, ?_, ?_⟩
  · intro fs data perm perm2
    unfold uploadContentAddressable
    by_cases h : (hadronFilesDir ++ sha256Hex data) ∈ fs.files <;> simp [h]
  · intro fs d1 d2 p1 p2
    rw [uploadContentAddressable_fst, uploadContentAddressable_fst]
    constructor
    · intro h
      apply String.ext
      have := congrArg String.data h
      simpa [String.data_append] using this
    · intro h
      rw [h]
  · decide

/-- C9: `Plan.DryRun` is not a read-only traversal of the deployment state
machine — for every plan it computes no decisions, issues no commands, and
returns `errDryRunNotImplemented`. -/
theorem dryRun_not_implemented (p : Plan) :
    dryRun p = (.error "dry run not yet implemented", []) := rfl

/-- C10: a finalized firewall configuration always contains a 22/tcp rule;
when the caller-built rules (e.g. after `ClearDefaultRules`) omit SSH,
`FirewallBuilder.Done` prepends a rate-limited 22/tcp rule before attaching
the config to the host. -/
theorem firewallDone_ensures_ssh (cfg : FirewallConfig) :
    hasSSHRule (firewallDone cfg).rules = true ∧
    (hasSSHRule cfg.rules = false →
      (firewallDone cfg).rules = sshAutoRule :: cfg.rules ∧ sshAutoRule.rateLimit = true ∧
        sshAutoRule.port = 22 ∧ sshAutoRule.protocol = "tcp") := by
  constructor
  · unfold firewallDone
    split
    · assumption
    · simp [hasSSHRule, sshAutoRule]
  · intro h
    unfold firewallDone
    rw [h]
    exact ⟨rfl, rfl, rfl, rfl⟩

/-- C10 witness: applying the theorem to the cleared default configuration,
which has no rules at all. -/
theorem firewallDone_ensures_ssh_witness :
    hasSSHRule (clearDefaultRules defaultFirewallConfig).rules = false ∧
    (firewallDone (clearDefaultRules defaultFirewallConfig)).rules =
      sshAutoRule :: (clearDefaultRules defaultFirewallConfig).rules :=
  ⟨by decide, ((firewallDone_ensures_ssh (clearDefaultRules defaultFirewallConfig)).2
    (by decide)).1⟩

theorem mutFree_nil : MutFree [] := rfl

theorem mutFree_append {l1 l2 : List Cmd} : MutFree (l1 ++ l2) ↔ MutFree l1 ∧ MutFree l2 := by
  simp [MutFree, List.filter_append]

theorem mutFree_cons {c : Cmd} {l : List Cmd} :
    MutFree (c :: l) ↔ isDockerMut c = false ∧ MutFree l := by
  cases h : isDockerMut c <;> simp [MutFree, List.filter_cons, h]

theorem installLoop_mutFree (w : World) (ep : String) (l : List String) :
    MutFree (installLoop w ep l).2 := by
  induction l with
  | nil => exact mutFree_nil
  | cons p rest ih =>
    rcases hE : installLoop w ep rest with ⟨r, t⟩
    rw [hE] at ih
    by_cases h : w.pkgInstallOk ep p = true
    · simpa [installLoop, h, hE, mutFree_cons, isDockerMut] using ih
    · simp [installLoop, h, MutFree, List.filter, isDockerMut]

theorem removeLoop_mutFree (w : World) (ep : String) (l : List String) :
    MutFree (removeLoop w ep l).2 := by
  induction l with
  | nil => exact mutFree_nil
  | cons p rest ih =>
    rcases hE : removeLoop w ep rest with ⟨r, t⟩
    rw [hE] at ih
    by_cases h : w.pkgRemoveOk ep p = true
    · simpa [removeLoop, h, hE, mutFree_cons, isDockerMut] using ih
    · simp [removeLoop, h, MutFree, List.filter, isDockerMut]

theorem deployHostPackages_mutFree (w : World) (h : HostS) :
    MutFree (deployHostPackages w h).2 := by
  unfold deployHostPackages
  by_cases h1 : (h.packages.isEmpty && h.removePackages.isEmpty) = true
  · simp [h1, mutFree_nil]
  · by_cases h2 : w.clientOk h.endpoint = true
    · rcases hE : installLoop w h.endpoint h.packages with ⟨r, t⟩
      have ht := installLoop_mutFree w h.endpoint h.packages
      rw [hE] at ht
      cases r with
      | error e => simpa [h1, h2, hE] using ht
      | ok _ =>
        rcases hE2 : removeLoop w h.endpoint h.removePackages with ⟨r2, t2⟩
        have ht2 := removeLoop_mutFree w h.endpoint h.removePackages
        rw [hE2] at ht2
        simp [h1, h2, hE, hE2, mutFree_append]
        exact ⟨ht, ht2⟩
    · simp [h1, h2, mutFree_nil]

theorem deployLoop_mutFree (f : α → Res × List Cmd) (xs : List α)
    (h : ∀ x ∈ xs, MutFree (f x).2) : MutFree (deployLoop f xs).2 := by
  induction xs with
  | nil => exact mutFree_nil
  | cons x rest ih =>
    have hx := h x (List.mem_cons_self x rest)
    have hr := ih (fun y hy => h y (List.mem_cons_of_mem x hy))
    rcases hE : f x with ⟨r, t⟩
    rw [hE] at hx
    cases r with
    | error e => simpa [deployLoop, hE] using hx
    | ok _ =>
      rcases hE2 : deployLoop f rest with ⟨r2, t2⟩
      rw [hE2] at hr
      simp [deployLoop, hE, hE2, mutFree_append]
      exact ⟨hx, hr⟩

theorem daemonWriteRestart_mutFree (w : World) (ep : String) :
    MutFree (daemonWriteRestart w ep).2 := by
  unfold daemonWriteRestart
  by_cases h1 : w.dmnWriteOk ep = true <;>
    by_cases h2 : w.dmnRestartOk ep = true <;>
    by_cases h3 : w.dmnReadyOk ep = true <;>
    simp [h1, h2, h3, MutFree, List.filter, isDockerMut]

theorem deployHostDockerDaemon_mutFree (w : World) (h : HostS) :
    MutFree (deployHostDockerDaemon w h).2 := by
  have hw := daemonWriteRestart_mutFree w h.endpoint
  rcases hE2 : daemonWriteRestart w h.endpoint with ⟨r, t⟩
  rw [hE2] at hw
  replace hw : MutFree t := hw
  unfold deployHostDockerDaemon
  rw [hE2]
  repeat' split
  all_goals simp_all [mutFree_cons, mutFree_append, mutFree_nil, isDockerMut, MutFree]

theorem deployHostAutoUpdates_mutFree (w : World) (h : HostS) :
    MutFree (deployHostAutoUpdates w h).2 := by
  unfold deployHostAutoUpdates
  repeat' split
  all_goals simp_all [mutFree_cons, mutFree_append, mutFree_nil, isDockerMut, MutFree]

theorem syncFirewallRules_mutFree (w : World) (ep : String) (current desired : List FirewallRule) :
    MutFree (syncFirewallRules w ep current desired).2 := by
  induction desired with
  | nil => exact mutFree_nil
  | cons d rest ih =>
    rcases hE : syncFirewallRules w ep current rest with ⟨r, t⟩
    rw [hE] at ih
    rcases hF : findRule current d.port d.protocol with _ | ex
    · by_cases h1 : w.fwAddOk ep d = true
      · simpa [syncFirewallRules, hF, h1, hE, mutFree_cons, isDockerMut] using ih
      · simp [syncFirewallRules, hF, h1, MutFree, List.filter, isDockerMut]
    · by_cases h1 : rulesEqual ex d = true
      · simpa [syncFirewallRules, hF, h1, hE] using ih
      · by_cases h2 : w.fwRemoveOk ep ex.port ex.protocol = true
        · by_cases h3 : w.fwAddOk ep d = true
          · simpa [syncFirewallRules, hF, h1, h2, h3, hE, mutFree_cons, isDockerMut] using ih
          · simp [syncFirewallRules, hF, h1, h2, h3, MutFree, List.filter, isDockerMut]
        · simp [syncFirewallRules, hF, h1, h2, MutFree, List.filter, isDockerMut]

theorem removeUnwantedRules_mutFree (w : World) (ep : String)
    (desired current : List FirewallRule) :
    MutFree (removeUnwantedRules w ep desired current).2 := by
  induction current with
  | nil => exact mutFree_nil
  | cons cur rest ih =>
    rcases hE : removeUnwantedRules w ep desired rest with ⟨r, t⟩
    rw [hE] at ih
    rcases hF : findRule desired cur.port cur.protocol with _ | ex
    · by_cases h1 : w.fwRemoveOk ep cur.port cur.protocol = true
      · simpa [removeUnwantedRules, hF, h1, hE, mutFree_cons, isDockerMut] using ih
      · simp [removeUnwantedRules, hF, h1, MutFree, List.filter, isDockerMut]
    · simpa [removeUnwantedRules, hF, hE] using ih

theorem firewallEnableStep_mutFree (w : World) (ep : String) :
    MutFree (firewallEnableStep w ep).2 := by
  unfold firewallEnableStep
  rcases hE : w.fwEnabled ep with u | b
  · simp [hE, MutFree, List.filter, isDockerMut]
  · cases b <;> by_cases h1 : w.fwEnableOk ep = true <;>
      simp [hE, h1, MutFree, List.filter, isDockerMut]

theorem firewallRulesPhase_mutFree (w : World) (ep : String) (cfg : FirewallConfig) :
    MutFree (firewallRulesPhase w ep cfg).2 := by
  unfold firewallRulesPhase
  rcases hE : w.fwRulesCurrent ep with u | current
  · simp [hE, MutFree, List.filter, isDockerMut]
  · have hs := syncFirewallRules_mutFree w ep current cfg.rules
    rcases hE2 : syncFirewallRules w ep current cfg.rules with ⟨r, t⟩
    rw [hE2] at hs
    cases r with
    | error e => simpa [hE, hE2, mutFree_cons, isDockerMut] using hs
    | ok _ =>
      have hr := removeUnwantedRules_mutFree w ep cfg.rules current
      rcases hE3 : removeUnwantedRules w ep cfg.rules current with ⟨r2, t2⟩
      rw [hE3] at hr
      cases r2 with
      | error e =>
        simp [hE, hE2, hE3, mutFree_cons, mutFree_append, isDockerMut]
        exact ⟨hs, hr⟩
      | ok _ =>
        have he := firewallEnableStep_mutFree w ep
        rcases hE4 : firewallEnableStep w ep with ⟨r3, t3⟩
        rw [hE4] at he
        simp [hE, hE2, hE3, hE4, mutFree_cons, mutFree_append, isDockerMut]
        exact ⟨hs, hr, he⟩

theorem deployHostFirewall_mutFree (w : World) (h : HostS) :
    MutFree (deployHostFirewall w h).2 := by
  unfold deployHostFirewall
  rcases hC : h.firewallConfig with _ | cfg
  · exact mutFree_nil
  · by_cases h1 : (!cfg.enabled) = true
    · simp [h1, mutFree_nil]
    · by_cases h2 : w.clientOk h.endpoint = true
      · rcases hE : w.fwInstalled h.endpoint with u | installed
        · simp [h1, h2, hE, MutFree, List.filter, isDockerMut]
        · have hp := firewallRulesPhase_mutFree w h.endpoint cfg
          rcases hE4 : firewallRulesPhase w h.endpoint cfg with ⟨r4, t4⟩
          rw [hE4] at hp
          cases installed <;>
            by_cases h3 : w.fwInstallOk h.endpoint = true <;>
            rcases hD : w.fwDefaults h.endpoint with u | cur <;>
            by_cases h5 : w.fwSetDefaultsOk h.endpoint = true <;>
            first
            | (simp [h1, h2, h3, h5, hE, hD, hE4, mutFree_append, mutFree_cons, isDockerMut,
                MutFree, List.filter]
               split <;>
                 simp_all [mutFree_append, mutFree_cons, isDockerMut, MutFree, List.filter])
            | simp_all [mutFree_append, mutFree_cons, isDockerMut, MutFree, List.filter]
      · simp [h1, h2, mutFree_nil]

theorem registriesLoop_mutFree (w : World) (ep : String) (l : List RegistryCredential) :
    MutFree (registriesLoop w ep l).2 := by
  induction l with
  | nil => exact mutFree_nil
  | cons reg rest ih =>
    rcases hE : registriesLoop w ep rest with ⟨r, t⟩
    rw [hE] at ih
    by_cases h1 : w.regLoginOk ep reg.registry = true
    · simpa [registriesLoop, h1, hE, mutFree_cons, isDockerMut] using ih
    · simp [registriesLoop, h1, MutFree, List.filter, isDockerMut]

theorem loginHostRegistries_mutFree (w : World) (h : HostS) :
    MutFree (loginHostRegistries w h).2 := by
  unfold loginHostRegistries
  by_cases h1 : h.registries.isEmpty = true
  · simp [h1, mutFree_nil]
  · by_cases h2 : w.clientOk h.endpoint = true
    · simpa [h1, h2] using registriesLoop_mutFree w h.endpoint h.registries
    · simp [h1, h2, mutFree_nil]

theorem executeRun_mutFree (w : World) (p : Plan)
    (h1 : MutFree (deployPackages w p).2)
    (h2 : MutFree (deployDockerDaemon w p).2)
    (h3 : MutFree (deployAutoUpdates w p).2)
    (h4 : MutFree (deployFirewalls w p).2)
    (h5 : MutFree (loginRegistries w p).2)
    (h6 : MutFree (deployNetworks w p).2)
    (h7 : MutFree (deployVolumes w p).2)
    (h8 : MutFree (deployContainers w p).2) :
    MutFree (executeRun w p).2 := by
  unfold executeRun
  rcases e1 : deployPackages w p with ⟨r1, t1⟩
  rw [e1] at h1
  replace h1 : MutFree t1 := h1
  cases r1 with
  | error e => exact h1
  | ok _ =>
  rcases e2 : deployDockerDaemon w p with ⟨r2, t2⟩
  rw [e2] at h2
  replace h2 : MutFree t2 := h2
  cases r2 with
  | error e => simp [mutFree_append, h1, h2]
  | ok _ =>
  rcases e3 : deployAutoUpdates w p with ⟨r3, t3⟩
  rw [e3] at h3
  replace h3 : MutFree t3 := h3
  cases r3 with
  | error e => simp [mutFree_append, h1, h2, h3]
  | ok _ =>
  rcases e4 : deployFirewalls w p with ⟨r4, t4⟩
  rw [e4] at h4
  replace h4 : MutFree t4 := h4
  cases r4 with
  | error e => simp [mutFree_append, h1, h2, h3, h4]
  | ok _ =>
  rcases e5 : loginRegistries w p with ⟨r5, t5⟩
  rw [e5] at h5
  replace h5 : MutFree t5 := h5
  cases r5 with
  | error e => simp [mutFree_append, h1, h2, h3, h4, h5]
  | ok _ =>
  rcases e6 : deployNetworks w p with ⟨r6, t6⟩
  rw [e6] at h6
  replace h6 : MutFree t6 := h6
  cases r6 with
  | error e => simp [mutFree_append, h1, h2, h3, h4, h5, h6]
  | ok _ =>
  rcases e7 : deployVolumes w p with ⟨r7, t7⟩
  rw [e7] at h7
  replace h7 : MutFree t7 := h7
  cases r7 with
  | error e => simp [mutFree_append, h1, h2, h3, h4, h5, h6, h7]
  | ok _ =>
  rcases e8 : deployContainers w p with ⟨r8, t8⟩
  rw [e8] at h8
  replace h8 : MutFree t8 := h8
  cases r8 with
  | error e => simp [mutFree_append, h1, h2, h3, h4, h5, h6, h7, h8]
  | ok _ => simp [mutFree_append, h1, h2, h3, h4, h5, h6, h7, h8]

theorem pullImageResult_false_iff (s : String) :
    pullImageResult s = false ↔ goContains (goTrimSpace s) upToDateNeedle = true := by
  unfold pullImageResult
  by_cases h : goContains (goTrimSpace s) upToDateNeedle = true <;> simp [h, ite_self]

theorem deployResource_mutFree_of_match (w : World) (r : DeployableResource)
    (ops : ResourceOps)
    (hex : w.resExists ops.resourceType r.host r.name = .ok true)
    (hl : w.resLabel ops.resourceType r.host r.name labelConfigSHA = .ok r.configHash) :
    MutFree (deployResource w r ops).2 := by
  unfold deployResource
  by_cases hc : w.clientOk r.host = true
  · simp only [hc, if_true, hex, hl, beq_self_eq_true, if_pos]
    rfl
  · simp only [hc, if_false, Bool.false_eq_true]
    exact mutFree_nil

theorem deployContainer_mutFree_of_match (w : World) (c : Container) (out : String)
    (hp : w.pullStdout c.host c.image = .ok out)
    (hup : goContains (goTrimSpace out) upToDateNeedle = true)
    (hex : w.ctrExists c.host c.name = .ok true)
    (hl : w.ctrLabel c.host c.name labelConfigSHA = .ok c.configHash) :
    MutFree (deployContainer w c).2 := by
  have hpr : pullImageResult out = false := (pullImageResult_false_iff out).mpr hup
  unfold deployContainer
  by_cases hc : w.clientOk c.host = true
  · simp only [hc, if_true, hp, hex, hl, hpr, beq_self_eq_true, Bool.not_false,
      Bool.and_true, if_pos]
    rfl
  · simp only [hc, if_false, Bool.false_eq_true]
    exact mutFree_nil

/-- C3: with every declared network, volume and container already present
remotely, each `hadron.config.sha` label reading back equal to the declared
ConfigHash, and every image pull reporting "Status: Image is up to date", a
run of `Plan.Execute` issues zero create, remove, stop or docker-run
commands for networks, volumes and containers — re-running against
unchanged remote state is mutation-free. -/
theorem execute_second_run_no_mutations (w : World) (p : Plan)
    (hn : ∀ n ∈ p.networks, w.resExists "network" n.host n.name = .ok true ∧
      w.resLabel "network" n.host n.name labelConfigSHA = .ok n.configHash)
    (hv : ∀ v ∈ p.volumes, w.resExists "volume" v.host v.name = .ok true ∧
      w.resLabel "volume" v.host v.name labelConfigSHA = .ok v.configHash)
    (hc : ∀ c ∈ p.containers, w.ctrExists c.host c.name = .ok true ∧
      w.ctrLabel c.host c.name labelConfigSHA = .ok c.configHash ∧
      ∃ out, w.pullStdout c.host c.image = .ok out ∧
        goContains (goTrimSpace out) upToDateNeedle = true) :
    (executeRun w p).2.filter isDockerMut = [] := by
  show MutFree (executeRun w p).2
  apply executeRun_mutFree
  · exact deployLoop_mutFree _ _ (fun h _ => deployHostPackages_mutFree w h)
  · exact deployLoop_mutFree _ _ (fun h _ => deployHostDockerDaemon_mutFree w h)
  · exact deployLoop_mutFree _ _ (fun h _ => deployHostAutoUpdates_mutFree w h)
  · exact deployLoop_mutFree _ _ (fun h _ => deployHostFirewall_mutFree w h)
  · exact deployLoop_mutFree _ _ (fun h _ => loginHostRegistries_mutFree w h)
  · exact deployLoop_mutFree _ _ (fun n hm =>
      deployResource_mutFree_of_match w n.toResource networkOps (hn n hm).1 (hn n hm).2)
  · exact deployLoop_mutFree _ _ (fun v hm =>
      deployResource_mutFree_of_match w v.toResource volumeOps (hv v hm).1 (hv v hm).2)
  · refine deployLoop_mutFree _ _ (fun c hm => ?_)
    obtain ⟨hex, hl, out, hp, hup⟩ := hc c hm
    exact deployContainer_mutFree_of_match w c out hp hup hex hl

/-- C3 witness: the idempotence theorem applied to a concrete plan (one
network, one volume, one container on one host) against a world whose state
matches the plan. -/
theorem execute_second_run_no_mutations_witness :
    (∀ n ∈ plan3.networks, world3.resExists "network" n.host n.name = .ok true ∧
      world3.resLabel "network" n.host n.name labelConfigSHA = .ok n.configHash) ∧
    (executeRun world3 plan3).2.filter isDockerMut = [] := by
  constructor
  · intro n hmem
    simp only [plan3, List.mem_singleton] at hmem
    subst hmem
    exact ⟨rfl, rfl⟩
  · apply execute_second_run_no_mutations world3 plan3
    · intro n hmem
      simp only [plan3, List.mem_singleton] at hmem
      subst hmem
      exact ⟨rfl, rfl⟩
    · intro v hmem
      simp only [plan3, List.mem_singleton] at hmem
      subst hmem
      exact ⟨rfl, by decide⟩
    · intro c hmem
      simp only [plan3, List.mem_singleton] at hmem
      subst hmem
      exact ⟨rfl, rfl, "Status: Image is up to date for img@sha256:abc", rfl, by decide⟩

theorem replaceAndRun_not_mutFree (w : World) (c : Container) :
    ¬ MutFree (replaceAndRun w c).2 := by
  unfold replaceAndRun
  by_cases h : w.ctrRemoveOk c.host c.name = true
  · rcases hE : createAndRun w c with ⟨r, t⟩
    simp [h, hE, mutFree_cons, isDockerMut]
  · simp [h, mutFree_cons, isDockerMut]

/-- C5: when the container exists and the pull succeeds with output `out`,
`deployContainer` leaves it unchanged — success with no docker mutation
after the pull — exactly when the stored `hadron.config.sha` label was read
back equal to the declared ConfigHash and `PullImage` returned false; and
`PullImage` returns false exactly when `docker pull`'s output reports the
image is already up to date, so a freshly downloaded image forces
redeployment even with an unchanged hash. -/
theorem container_unchanged_iff (w : World) (c : Container) (out : String)
    (hok : w.clientOk c.host = true)
    (hex : w.ctrExists c.host c.name = .ok true)
    (hp : w.pullStdout c.host c.image = .ok out) :
    ((MutFree (deployContainer w c).2 ∧ (deployContainer w c).1 = .ok ()) ↔
      (w.ctrLabel c.host c.name labelConfigSHA = .ok c.configHash ∧
        pullImageResult out = false)) ∧
    (∀ s, pullImageResult s = false ↔ goContains (goTrimSpace s) upToDateNeedle = true) := by
  refine ⟨?_, pullImageResult_false_iff⟩
  constructor
  · rintro ⟨hm, hr⟩
    rcases hl : w.ctrLabel c.host c.name labelConfigSHA with u | ehash
    · exfalso
      have hDC : (deployContainer w c).2 =
          [Cmd.pullImage c.host c.image, Cmd.containerExists c.host c.name,
            Cmd.containerGetLabel c.host c.name labelConfigSHA] ++ (replaceAndRun w c).2 := by
        unfold deployContainer
        rcases hE : replaceAndRun w c with ⟨r2, t2⟩
        simp [hok, hp, hex, hl, hE]
      rw [hDC] at hm
      exact replaceAndRun_not_mutFree w c ((mutFree_append.mp hm).2)
    · by_cases hcnd : (ehash == c.configHash && !pullImageResult out) = true
      · have hcnd2 : ehash = c.configHash ∧ pullImageResult out = false := by
          simpa using hcnd
        exact ⟨congrArg Except.ok hcnd2.1, hcnd2.2⟩
      · exfalso
        have hDC : (deployContainer w c).2 =
            [Cmd.pullImage c.host c.image, Cmd.containerExists c.host c.name,
              Cmd.containerGetLabel c.host c.name labelConfigSHA] ++
              (replaceAndRun w c).2 := by
          unfold deployContainer
          rcases hE : replaceAndRun w c with ⟨r2, t2⟩
          simp [hok, hp, hex, hl, hE, hcnd]
        rw [hDC] at hm
        exact replaceAndRun_not_mutFree w c ((mutFree_append.mp hm).2)
  · rintro ⟨hl, hpull⟩
    have hDC : deployContainer w c =
        (.ok (), [Cmd.pullImage c.host c.image, Cmd.containerExists c.host c.name,
          Cmd.containerGetLabel c.host c.name labelConfigSHA]) := by
      unfold deployContainer
      simp [hok, hp, hex, hl, hpull]
    rw [hDC]
    exact ⟨rfl, rfl⟩

/-- C5 witness: the unchanged-iff theorem applied to a concrete existing
container with matching label and an up-to-date pull. -/
theorem container_unchanged_iff_witness :
    world5.clientOk ctr5.host = true ∧
    world5.ctrExists ctr5.host ctr5.name = .ok true ∧
    world5.pullStdout ctr5.host ctr5.image =
      .ok "Status: Image is up to date for img:tag" ∧
    (((MutFree (deployContainer world5 ctr5).2 ∧
        (deployContainer world5 ctr5).1 = .ok ()) ↔
      (world5.ctrLabel ctr5.host ctr5.name labelConfigSHA = .ok ctr5.configHash ∧
        pullImageResult "Status: Image is up to date for img:tag" = false)) ∧
      (∀ s, pullImageResult s = false ↔ goContains (goTrimSpace s) upToDateNeedle = true)) :=
  ⟨rfl, rfl, rfl, container_unchanged_iff world5 ctr5 _ rfl rfl rfl⟩

theorem mountsLoop_ok (w : World) (ep : String) (ms : List FileMount)
    (h : ∀ m ∈ ms, ∃ pth, w.mountUpload ep m.localPath = .ok pth) :
    (mountsLoop w ep ms).1 = .ok () := by
  induction ms with
  | nil => rfl
  | cons m rest ih =>
    obtain ⟨pth, hp⟩ := h m (List.mem_cons_self m rest)
    have hr := ih (fun x hx => h x (List.mem_cons_of_mem m hx))
    rcases hE : mountsLoop w ep rest with ⟨r, t⟩
    rw [hE] at hr
    simp [mountsLoop, hp, hE]
    exact hr

theorem dataMountsLoop_ok (w : World) (ep : String) (ms : List DataMount)
    (h : ∀ m ∈ ms, ∃ pth, w.dataUpload ep m.data = .ok pth) :
    (dataMountsLoop w ep ms).1 = .ok () := by
  induction ms with
  | nil => rfl
  | cons m rest ih =>
    obtain ⟨pth, hp⟩ := h m (List.mem_cons_self m rest)
    have hr := ih (fun x hx => h x (List.mem_cons_of_mem m hx))
    rcases hE : dataMountsLoop w ep rest with ⟨r, t⟩
    rw [hE] at hr
    simp [dataMountsLoop, hp, hE]
    exact hr

theorem createAndRun_ok (w : World) (c : Container)
    (hm : ∀ m ∈ c.mounts, ∃ pth, w.mountUpload c.host m.localPath = .ok pth)
    (hd : ∀ m ∈ c.dataMounts, ∃ pth, w.dataUpload c.host m.data = .ok pth)
    (hr : w.runOk c.host c.name = true) :
    (createAndRun w c).1 = .ok () ∧
      Cmd.runContainer c.host c.name c.image ∈ (createAndRun w c).2 := by
  have h1 := mountsLoop_ok w c.host c.mounts hm
  have h2 := dataMountsLoop_ok w c.host c.dataMounts hd
  rcases hE1 : mountsLoop w c.host c.mounts with ⟨r1, t1⟩
  rw [hE1] at h1
  replace h1 : r1 = .ok () := h1
  subst h1
  rcases hE2 : dataMountsLoop w c.host c.dataMounts with ⟨r2, t2⟩
  rw [hE2] at h2
  replace h2 : r2 = .ok () := h2
  subst h2
  unfold createAndRun
  simp [hE1, hE2, hr]

theorem deployResource_label_failure (w : World) (r : DeployableResource) (ops : ResourceOps)
    (hc : w.clientOk r.host = true)
    (hex : w.resExists ops.resourceType r.host r.name = .ok true)
    (hl : w.resLabel ops.resourceType r.host r.name labelConfigSHA = .error ())
    (hrm : w.resRemoveOk ops.resourceType r.host r.name = true)
    (hcr : w.resCreateOk ops.resourceType r.host r.name = true) :
    deployResource w r ops = (.ok (), [Cmd.resExists ops.resourceType r.host r.name,
      Cmd.resGetLabel ops.resourceType r.host r.name labelConfigSHA,
      Cmd.resRemove ops.resourceType r.host r.name,
      Cmd.resCreate ops.resourceType r.host r.name r.driver]) := by
  unfold deployResource resRemoveCreate resCreateStep
  simp [hc, hex, hl, hrm, hcr]

/-- C7: an existing network, volume or container whose `hadron.config.sha`
label cannot be read back is not aborted: the warning path treats it as
stale — the old resource is removed (the container stopped and
force-removed) and recreated, and the deployment of that resource
succeeds. -/
theorem label_read_failure_recreates (w : World) (n : NetworkS) (v : VolumeS)
    (c : Container) (pout : String)
    (hno : w.clientOk n.host = true)
    (hne : w.resExists "network" n.host n.name = .ok true)
    (hnl : w.resLabel "network" n.host n.name labelConfigSHA = .error ())
    (hnr : w.resRemoveOk "network" n.host n.name = true)
    (hnc : w.resCreateOk "network" n.host n.name = true)
    (hvo : w.clientOk v.host = true)
    (hve : w.resExists "volume" v.host v.name = .ok true)
    (hvl : w.resLabel "volume" v.host v.name labelConfigSHA = .error ())
    (hvr : w.resRemoveOk "volume" v.host v.name = true)
    (hvc : w.resCreateOk "volume" v.host v.name = true)
    (hco : w.clientOk c.host = true)
    (hcp : w.pullStdout c.host c.image = .ok pout)
    (hce : w.ctrExists c.host c.name = .ok true)
    (hcl : w.ctrLabel c.host c.name labelConfigSHA = .error ())
    (hcr : w.ctrRemoveOk c.host c.name = true)
    (hcm : ∀ m ∈ c.mounts, ∃ pth, w.mountUpload c.host m.localPath = .ok pth)
    (hcd : ∀ m ∈ c.dataMounts, ∃ pth, w.dataUpload c.host m.data = .ok pth)
    (hcu : w.runOk c.host c.name = true) :
    deployNetwork w n = (.ok (), [Cmd.resExists "network" n.host n.name,
      Cmd.resGetLabel "network" n.host n.name labelConfigSHA,
      Cmd.resRemove "network" n.host n.name,
      Cmd.resCreate "network" n.host n.name n.driver]) ∧
    deployVolume w v = (.ok (), [Cmd.resExists "volume" v.host v.name,
      Cmd.resGetLabel "volume" v.host v.name labelConfigSHA,
      Cmd.resRemove "volume" v.host v.name,
      Cmd.resCreate "volume" v.host v.name v.driver]) ∧
    ((deployContainer w c).1 = .ok () ∧
      Cmd.removeContainer c.host c.name true ∈ (deployContainer w c).2 ∧
      Cmd.runContainer c.host c.name c.image ∈ (deployContainer w c).2) := by
  refine ⟨deployResource_label_failure w n.toResource networkOps hno hne hnl hnr hnc,
    deployResource_label_failure w v.toResource volumeOps hvo hve hvl hvr hvc, ?_⟩
  obtain ⟨hok1, hmem⟩ := createAndRun_ok w c hcm hcd hcu
  rcases hE : createAndRun w c with ⟨r, t⟩
  rw [hE] at hok1 hmem
  replace hok1 : r = .ok () := hok1
  subst hok1
  replace hmem : Cmd.runContainer c.host c.name c.image ∈ t := hmem
  unfold deployContainer replaceAndRun
  simp [hco, hcp, hce, hcl, hcr, hE, hmem]

/-- C7 witness: the recreate-on-label-failure theorem applied to a concrete
network, volume and container whose label reads all fail. -/
theorem label_read_failure_recreates_witness :
    world7.resLabel "network" net7.host net7.name labelConfigSHA = .error () ∧
    world7.ctrLabel ctr7.host ctr7.name labelConfigSHA = .error () ∧
    (deployNetwork world7 net7 = (.ok (), [Cmd.resExists "network" "h1" "n7",
      Cmd.resGetLabel "network" "h1" "n7" labelConfigSHA,
      Cmd.resRemove "network" "h1" "n7",
      Cmd.resCreate "network" "h1" "n7" "bridge"]) ∧
    deployVolume world7 vol7 = (.ok (), [Cmd.resExists "volume" "h1" "v7",
      Cmd.resGetLabel "volume" "h1" "v7" labelConfigSHA,
      Cmd.resRemove "volume" "h1" "v7",
      Cmd.resCreate "volume" "h1" "v7" "local"]) ∧
    ((deployContainer world7 ctr7).1 = .ok () ∧
      Cmd.removeContainer "h1" "c7" true ∈ (deployContainer world7 ctr7).2 ∧
      Cmd.runContainer "h1" "c7" "img7" ∈ (deployContainer world7 ctr7).2)) :=
  ⟨rfl, rfl, label_read_failure_recreates world7 net7 vol7 ctr7
    "Status: Image is up to date for img7" rfl rfl rfl rfl rfl rfl rfl rfl rfl rfl rfl rfl
    rfl rfl rfl
    (fun m hm => absurd hm (List.not_mem_nil m))
    (fun m hm => absurd hm (List.not_mem_nil m)) rfl⟩

/-- C1 (code evaluation): for a running container with a declared
HealthCheck whose stored label differs from the declared hash, the executor
stops and force-removes the *old* instance before starting the replacement
(same name, no new identity, no network-alias handover), performs no health
check, and when the replacement's `docker run` fails, `Plan.Execute` returns
the failure with the old instance already gone — zero running replicas
remain, the opposite of the claimed rollback. -/
theorem deployContainer_removes_old_before_new :
    ctr1.healthCheck.isSome = true ∧
    executeRun world1 plan1 =
      (.error "failed to deploy containers: failed to run container",
        [Cmd.isUnattendedInstalled "h1", Cmd.isAutoUpdatesConfigured "h1",
         Cmd.pullImage "h1" "img:v2", Cmd.containerExists "h1" "web",
         Cmd.containerGetLabel "h1" "web" labelConfigSHA,
         Cmd.stopContainer "h1" "web", Cmd.removeContainer "h1" "web" true,
         Cmd.runContainer "h1" "web" "img:v2"]) :=
  ⟨rfl, by decide⟩

/-- C2 (code evaluation): with container A declared before B and
`A.DependsOn(B)`, `Plan.Execute` issues A's create (docker run) *before* B's
— declaration order, not a topological order of DependsOn; and for a plan
whose DependsOn edges form a cycle, Execute does not fail before mutating:
it runs both containers and succeeds, issuing no cycle diagnostic. -/
theorem deployContainers_ignores_dependencies :
    ctrA.dependsOn = [ctrB.name] ∧
    executeRun world2 plan2 =
      (.ok (), [Cmd.isUnattendedInstalled "h1", Cmd.isAutoUpdatesConfigured "h1",
        Cmd.pullImage "h1" "img-a", Cmd.containerExists "h1" "app-a",
        Cmd.runContainer "h1" "app-a" "img-a",
        Cmd.pullImage "h1" "img-b", Cmd.containerExists "h1" "app-b",
        Cmd.runContainer "h1" "app-b" "img-b"]) ∧
    ctrX.dependsOn = [ctrY.name] ∧ ctrY.dependsOn = [ctrX.name] ∧
    (executeRun world2 planCycle).1 = .ok () ∧
    Cmd.runContainer "h1" "app-x" "img-x" ∈ (executeRun world2 planCycle).2 :=
  ⟨rfl, by decide, rfl, rfl, by decide, by decide⟩

/-- C8 (counterexample): two hosts each installing a package, installation
failing on h1 only — `Plan.Execute` aborts the entire run inside the
packages phase: h2 receives no commands at all (its reconciliation never
runs), and the result is the single wrapped first failure, not an
aggregate. -/
theorem execute_first_host_failure_blocks_second :
    executeRun world8 plan8 =
      (.error "failed to deploy packages: failed to install package docker on h1",
        [Cmd.ensureInstalled "h1" "docker"]) ∧
    (executeRun world8 plan8).2.all (fun cmd => cmdHost cmd != "h2") = true :=
  ⟨by decide, by decide⟩

/-- C8 (amended): a failure in one host's phase aborts the entire run, not
just that host's remaining phases: when the packages phase fails,
`Plan.Execute` returns that first wrapped failure and its trace is exactly
the packages phase's trace — no later phase runs for any host; and within a
phase, a failing host stops the loop so that hosts after it are never
processed. -/
theorem execute_aborts_run_on_packages_failure (w : World) (p : Plan) (e : String)
    (h : (deployPackages w p).1 = .error e) :
    executeRun w p =
      (.error ("failed to deploy packages: " ++ e), (deployPackages w p).2) ∧
    ∀ (h1 : HostS) (rest : List HostS) (e2 : String),
      (deployHostPackages w h1).1 = .error e2 →
      deployLoop (deployHostPackages w) (h1 :: rest) =
        (.error e2, (deployHostPackages w h1).2) := by
  constructor
  · unfold executeRun
    rcases hE : deployPackages w p with ⟨r, t⟩
    rw [hE] at h
    cases r with
    | error e3 =>
      replace h : e3 = e := by simpa using h
      subst h
      rfl
    | ok _ => simp at h
  · intro h1 rest e2 he
    rcases hE : deployHostPackages w h1 with ⟨r, t⟩
    rw [hE] at he
    cases r with
    | error e3 =>
      replace he : e3 = e2 := by simpa using he
      subst he
      simp [deployLoop, hE]
    | ok _ => simp at he

/-- C8 amended witness: the abort theorem applied to the concrete two-host
plan whose first host fails its package installation. -/
theorem execute_aborts_run_on_packages_failure_witness :
    (deployPackages world8 plan8).1 = .error "failed to install package docker on h1" ∧
    (executeRun world8 plan8 =
      (.error ("failed to deploy packages: " ++ "failed to install package docker on h1"),
        (deployPackages world8 plan8).2) ∧
    ∀ (h1 : HostS) (rest : List HostS) (e2 : String),
      (deployHostPackages world8 h1).1 = .error e2 →
      deployLoop (deployHostPackages world8) (h1 :: rest) =
        (.error e2, (deployHostPackages world8 h1).2)) :=
  ⟨by decide, execute_aborts_run_on_packages_failure world8 plan8 _ (by decide)⟩

end Hadron
